import Mathlib

/-!
Shallow embedding of the abf package (a Go client for the ABF Freight
pickup-scheduling API, source file src/abf.go) and proofs about the
request-building and response-interpretation contract.

Modelling conventions:
* Go strings become Lean `String`.
* `uint` fields become `Nat`; `float64` values are modelled as exact
  rationals `ℚ` (the weights the claims mention are exactly expressible);
* `strconv.FormatFloat(w, 'f', 0, 64)` is modelled by correctly rounding
  the value to the nearest integer (ties to even, which is what Go's
  fixed-precision formatting does) and printing its decimal digits.
* `time.Duration` (a 64-bit signed count of nanoseconds) becomes `Int`
  reduced into the int64 range with an explicit wrap at 2^64.
* The HTTP exchange and `xml.Unmarshal` are external collaborators; the
  pipeline `requestPickupModel` is parametrised over them and the proofs
  only use what the repository's own code does with their results.
-/

namespace Abf

/-- The character for one decimal digit, per strconv's digit table
"0123456789": only ever applied to values below ten. -/
def digitChar : Nat → Char
  | 0 => '0'
  | 1 => '1'
  | 2 => '2'
  | 3 => '3'
  | 4 => '4'
  | 5 => '5'
  | 6 => '6'
  | 7 => '7'
  | 8 => '8'
  | _ => '9'

/-- Fuel-driven decimal digit production, most significant digit first.
The fuel only bounds the recursion depth; `natDigits` supplies enough. -/
def natDigitsAux : Nat → Nat → List Char
  | 0, _ => []
  | fuel + 1, n =>
    if n < 10 then [digitChar n]
    else natDigitsAux fuel (n / 10) ++ [digitChar (n % 10)]

/-- Decimal digits of a natural number, most significant first.
Models the digit production of Go's strconv integer formatting. -/
def natDigits (n : Nat) : List Char :=
  natDigitsAux (n + 1) n

/-- Decimal rendering of an integer (the output shape of strconv.Itoa and
of FormatFloat with precision 0: an optional minus sign then digits). -/
def intRepr (i : Int) : String :=
  if i < 0 then "-" ++ String.mk (natDigits i.natAbs)
  else String.mk (natDigits i.natAbs)

/-- Round a rational to the nearest integer, ties to even: the rounding
Go's strconv.FormatFloat applies when formatting with precision 0.
Computed on the reduced numerator and denominator: n is the floor of q
and r its nonnegative remainder, so q rounds down when 2r < den, up when
2r > den, and to the even neighbour on a tie. -/
def roundHalfEven (q : ℚ) : Int :=
  let d : Int := q.den
  let n := Int.fdiv q.num d
  let r := q.num - n * d
  if 2 * r < d then n
  else if d < 2 * r then n + 1
  else if n % 2 = 0 then n else n + 1

/-- Models strconv.FormatFloat(w, 'f', 0, 64): the value rounded to a whole
number and printed with no fractional digits. -/
def formatFloat0 (q : ℚ) : String :=
  intRepr (roundHalfEven q)

/-- Commodity (src/abf.go lines 130-142): one good being shipped. -/
structure Commodity where
  HandlingUnits : Nat := 0
  UnitType : String := ""
  Pieces : Nat := 0
  PiecesType : String := ""
  Weight : ℚ := 0
  Class : String := ""
  NMFC : String := ""
  NMFCSub : String := ""
  Cube : ℚ := 0
  Description : String := ""
  Hazmat : String := ""
  deriving DecidableEq

/-- PickupRequest (src/abf.go lines 69-125): the data sent to ABF to
schedule a pickup, with every field the Go struct declares. -/
structure PickupRequest where
  ID : String := ""
  RequesterType : String := ""
  PayTerms : String := ""
  ShipContact : String := ""
  ShipName : String := ""
  ShipAddress : String := ""
  ShipCity : String := ""
  ShipState : String := ""
  ShipZip : String := ""
  ShipCountry : String := ""
  ShipPhone : String := ""
  ConsCity : String := ""
  ConsState : String := ""
  ConsZip : String := ""
  ConsCountry : String := ""
  PickupDate : String := ""
  AT : String := ""
  OT : String := ""
  CT : String := ""
  Items : List Commodity := []
  Test : String := ""
  RequesterName : String := ""
  RequesterEmail : String := ""
  RequesterPhone : String := ""
  RequesterPhoneExt : String := ""
  ShipNamePlus : String := ""
  ShipPhoneExt : String := ""
  ShipFax : String := ""
  ShipEmail : String := ""
  ConsContact : String := ""
  ConsName : String := ""
  ConsNamePlus : String := ""
  ConsAddress : String := ""
  ConsPhone : String := ""
  ConsPhoneExt : String := ""
  ConsFax : String := ""
  ConsEmail : String := ""
  TPBContact : String := ""
  TPBName : String := ""
  TPBNamePlus : String := ""
  TPBAddress : String := ""
  TPBCity : String := ""
  TPBState : String := ""
  TPBZip : String := ""
  TPBCountry : String := ""
  TPBPhone : String := ""
  TPBPhoneExt : String := ""
  TPBFax : String := ""
  TPBEmail : String := ""
  Bol : String := ""
  PO1 : String := ""
  CRN1 : String := ""
  deriving DecidableEq

/-- The key/value pairs RequestPickup adds for the top-level fields
(src/abf.go lines 186-211), in v.Add order, ending with the Test mode
flag.  Exactly these 22 struct fields are added; no other field of
PickupRequest appears. -/
def topLevelPairs (p : PickupRequest) (mode : String) : List (String × String) :=
  [("ID", p.ID), ("RequesterType", p.RequesterType), ("PayTerms", p.PayTerms),
   ("ShipContact", p.ShipContact), ("ShipName", p.ShipName),
   ("ShipAddress", p.ShipAddress), ("ShipCity", p.ShipCity),
   ("ShipState", p.ShipState), ("ShipZip", p.ShipZip),
   ("ShipCountry", p.ShipCountry), ("ShipPhone", p.ShipPhone),
   ("ConsCity", p.ConsCity), ("ConsState", p.ConsState),
   ("ConsZip", p.ConsZip), ("ConsCountry", p.ConsCountry),
   ("PickupDate", p.PickupDate), ("AT", p.AT), ("OT", p.OT), ("CT", p.CT),
   ("Bol", p.Bol), ("PO1", p.PO1), ("CRN1", p.CRN1), ("Test", mode)]

/-- The five key/value pairs RequestPickup adds for the commodity at
0-based slice index i (src/abf.go lines 215-221): the key suffix is
strconv.Itoa(index), i.e. the 0-based position. -/
def commodityPairsOne (i : Nat) (c : Commodity) : List (String × String) :=
  [("HN" ++ intRepr i, intRepr c.HandlingUnits),
   ("HT" ++ intRepr i, c.UnitType),
   ("PN" ++ intRepr i, intRepr c.Pieces),
   ("PT" ++ intRepr i, c.PiecesType),
   ("WT" ++ intRepr i, formatFloat0 c.Weight)]

/-- The commodity pairs produced by the loop starting at slice index i:
`for index, item := range p.Items` visits the items in order with the
running 0-based index. -/
def commodityPairsFrom (i : Nat) : List Commodity → List (String × String)
  | [] => []
  | c :: rest => commodityPairsOne i c ++ commodityPairsFrom (i + 1) rest

/-- All commodity pairs, in loop order over the Items slice. -/
def commodityPairs (items : List Commodity) : List (String × String) :=
  commodityPairsFrom 0 items

/-- The full parameter list RequestPickup builds before the POST:
top-level fields, the Test mode flag, then the indexed commodity fields.
There is no validation step of any kind before this list is handed to
the HTTP client. -/
def buildParams (p : PickupRequest) (mode : String) : List (String × String) :=
  topLevelPairs p mode ++ commodityPairs p.Items

/-- Hexadecimal digit character (uppercase), as used by Go's url escaping. -/
def hexDigit (n : Nat) : Char :=
  if n < 10 then Char.ofNat (48 + n) else Char.ofNat (55 + n)

/-- Go's url.QueryEscape on a single byte: unreserved bytes pass through,
space becomes +, everything else is percent-encoded. -/
def escapeByte (b : Nat) : String :=
  if (65 ≤ b ∧ b ≤ 90) ∨ (97 ≤ b ∧ b ≤ 122) ∨ (48 ≤ b ∧ b ≤ 57) ∨
      b = 45 ∨ b = 95 ∨ b = 46 ∨ b = 126 then
    String.mk [Char.ofNat b]
  else if b = 32 then "+"
  else "%" ++ String.mk [hexDigit (b / 16), hexDigit (b % 16)]

/-- Go's url.QueryEscape over the UTF-8 bytes of a string. -/
def queryEscape (s : String) : String :=
  String.join (s.toUTF8.toList.map fun b => escapeByte b.toNat)

/-- url.Values.Encode: keys sorted, each key=value pair escaped and joined
with ampersands.  url.Values maps a key to its values in Add order; the
pairs RequestPickup adds all have distinct keys. -/
def encodeValues (pairs : List (String × String)) : String :=
  let sortedKeys := ((pairs.map Prod.fst).dedup).mergeSort fun a b => decide (a ≤ b)
  String.intercalate "&" (sortedKeys.flatMap fun k =>
    pairs.filterMap fun kv =>
      if kv.1 = k then some (queryEscape k ++ "=" ++ queryEscape kv.2) else none)

/-- Error (src/abf.go lines 157-160): carrier error code and message.
Field defaults are the Go zero values. -/
structure ErrorData where
  Code : String := ""
  Message : String := ""
  deriving DecidableEq

/-- Response (src/abf.go lines 146-154): the decoded carrier reply.  The
three interface-typed fields (SHIP, CONS, TPB) are carrier-opaque and
never read by the code except for logging, so they are not modelled. -/
structure Response where
  ConfirmationNumber : String := ""
  NumErrors : Nat := 0
  Error : ErrorData := {}
  deriving DecidableEq

/-- Message composition of pkg/errors.Wrap: the outer message, a colon
and the wrapped error's message. -/
def wrapErr (msg inner : String) : String := msg ++ ": " ++ inner

/-- The success/failure classification RequestPickup applies to a decoded
response (src/abf.go lines 245-257): empty confirmation number is failure
and the returned error wraps the carrier's error message around the
package's own failure message; otherwise the populated response is
returned with a nil error.  NumErrors is never consulted. -/
def interpretResponse (r : Response) : Except String Response :=
  if r.ConfirmationNumber = "" then
    .error (wrapErr r.Error.Message "abf.RequestPickup - pickup request failed")
  else
    .ok r

/-- The full RequestPickup pipeline (src/abf.go lines 179-258),
parametrised over the external collaborators: `post` performs the HTTP
POST of the encoded body and returns the raw response bytes (or a
transport error), `unmarshal` is encoding/xml's Unmarshal into Response
(or a decode error for bytes that are not well-formed XML with the
expected ABF root).  The code runs no validation before the POST; on a
collaborator error it returns that non-nil error unchanged (the
errors.Wrap results on the error paths are discarded by the source). -/
def requestPickupModel (p : PickupRequest) (mode : String)
    (post : String → Except String String)
    (unmarshal : String → Except String Response) : Except String Response :=
  match post (encodeValues (buildParams p mode)) with
  | .error e => .error e
  | .ok body =>
    match unmarshal body with
    | .error e => .error e
    | .ok r => interpretResponse r

/-- The package-level testMode variable starts as "Y" (src/abf.go line 43). -/
def initialTestMode : String := "Y"

/-- SetProductionMode (src/abf.go lines 163-168): sets testMode to "N"
when passed true and does nothing when passed false. -/
def setProductionMode (yes : Bool) (mode : String) : String :=
  if yes then "N" else mode

/-- The testMode value after a sequence of SetProductionMode calls
starting from a given mode. -/
def runModeFrom (mode : String) (calls : List Bool) : String :=
  calls.foldl (fun m b => setProductionMode b m) mode

/-- The testMode value after a sequence of SetProductionMode calls
starting from the package default. -/
def runModeCalls (calls : List Bool) : String :=
  runModeFrom initialTestMode calls

/-- Reduce an integer into the signed 64-bit range, as Go's wrapping
int64 arithmetic does. -/
def wrap64 (x : Int) : Int :=
  let r := x % (2 ^ 64)
  if r < 2 ^ 63 then r else r - 2 ^ 64

/-- time.Second: one billion nanoseconds (time.Duration counts ns). -/
def timeSecond : Int := 1000000000

/-- SetTimeout (src/abf.go lines 172-175): stores seconds * time.Second
in the package-level timeout, computed in wrapping int64 arithmetic. -/
def setTimeoutModel (seconds : Int) : Int :=
  wrap64 (seconds * timeSecond)

/-- The default timeout (src/abf.go line 48): time.Duration(10 * time.Second),
ten seconds of nanoseconds. -/
def initialTimeout : Int := 10 * timeSecond

/-- The 23 keys RequestPickup always emits, in v.Add order: the 22
struct fields it reads plus the Test mode flag. -/
def handledKeys : List String :=
  ["ID", "RequesterType", "PayTerms", "ShipContact", "ShipName",
   "ShipAddress", "ShipCity", "ShipState", "ShipZip", "ShipCountry",
   "ShipPhone", "ConsCity", "ConsState", "ConsZip", "ConsCountry",
   "PickupDate", "AT", "OT", "CT", "Bol", "PO1", "CRN1", "Test"]

/-- The declared PickupRequest fields RequestPickup never reads and never
encodes (the struct's own Test field is likewise never read: the emitted
Test key carries the package-level mode instead). -/
def omittedFieldNames : List String :=
  ["RequesterName", "RequesterEmail", "RequesterPhone", "RequesterPhoneExt",
   "ShipNamePlus", "ShipPhoneExt", "ShipFax", "ShipEmail",
   "ConsContact", "ConsName", "ConsNamePlus", "ConsAddress",
   "ConsPhone", "ConsPhoneExt", "ConsFax", "ConsEmail",
   "TPBContact", "TPBName", "TPBNamePlus", "TPBAddress", "TPBCity",
   "TPBState", "TPBZip", "TPBCountry", "TPBPhone", "TPBPhoneExt",
   "TPBFax", "TPBEmail"]

/-- The five two-character base names of the commodity-indexed keys. -/
def commPrefixes : List (List Char) :=
  [['H', 'N'], ['H', 'T'], ['P', 'N'], ['P', 'T'], ['W', 'T']]

/-- A pickup request with every field at its Go zero value. -/
def emptyPickup : PickupRequest := {}

/-- A pickup request holding sixteen zero-valued commodities: one more
than the carrier's documented maximum of fifteen. -/
def pickup16 : PickupRequest := { Items := List.replicate 16 {} }

/-- A pickup request holding a single zero-valued commodity. -/
def pickup1 : PickupRequest := { Items := [{}] }

/-- A commodity whose weight is 42.7 pounds. -/
def commodity427 : Commodity := { Weight := mkRat 427 10 }

/-- A carrier reply with a confirmation number: the success shape. -/
def respOk : Response := { ConfirmationNumber := "12345" }

/-- A carrier reply without a confirmation number but with a populated
error block: the failure shape. -/
def respFail : Response :=
  { ConfirmationNumber := "", NumErrors := 1,
    Error := { Code := "E01", Message := "Missing zip" } }

/-! Helper lemmas shared by the claim theorems. -/

theorem digitChar_ne_dot : ∀ n, digitChar n ≠ '.'
  | 0 => by decide
  | 1 => by decide
  | 2 => by decide
  | 3 => by decide
  | 4 => by decide
  | 5 => by decide
  | 6 => by decide
  | 7 => by decide
  | 8 => by decide
  | _ + 9 => by exact (by decide : ('9' : Char) ≠ '.')

theorem natDigitsAux_ne_dot (fuel : Nat) :
    ∀ n, ∀ c ∈ natDigitsAux fuel n, c ≠ '.' := by
  induction fuel with
  | zero => intro n c hc; simp [natDigitsAux] at hc
  | succ fuel ih =>
    intro n c hc
    unfold natDigitsAux at hc
    split at hc
    · simp only [List.mem_singleton] at hc
      exact hc ▸ digitChar_ne_dot n
    · rcases List.mem_append.1 hc with h | h
      · exact ih _ c h
      · simp only [List.mem_singleton] at h
        exact h ▸ digitChar_ne_dot (n % 10)

theorem intRepr_ne_dot (i : Int) : ∀ c ∈ (intRepr i).data, c ≠ '.' := by
  intro c hc
  unfold intRepr at hc
  split at hc
  · rw [String.data_append] at hc
    rcases List.mem_append.1 hc with h | h
    · simp only [show ("-" : String).data = ['-'] from rfl, List.mem_singleton] at h
      exact h ▸ (by decide)
    · exact natDigitsAux_ne_dot _ _ c h
  · exact natDigitsAux_ne_dot _ _ c hc

theorem mem_commodityPairsFrom_keys {items : List Commodity} {i : Nat} {k : String}
    (h : k ∈ (commodityPairsFrom i items).map Prod.fst) :
    ∃ (j : Nat) (pre : List Char), pre ∈ commPrefixes ∧
      k.data = pre ++ (intRepr j).data := by
  induction items generalizing i with
  | nil => simp [commodityPairsFrom] at h
  | cons c rest ih =>
    rw [commodityPairsFrom, List.map_append, List.mem_append] at h
    rcases h with h | h
    · simp only [commodityPairsOne, List.map_cons, List.map_nil,
        List.mem_cons, List.not_mem_nil, or_false] at h
      rcases h with h | h | h | h | h
      · exact ⟨i, ['H', 'N'], by decide, by rw [h, String.data_append]⟩
      · exact ⟨i, ['H', 'T'], by decide, by rw [h, String.data_append]⟩
      · exact ⟨i, ['P', 'N'], by decide, by rw [h, String.data_append]⟩
      · exact ⟨i, ['P', 'T'], by decide, by rw [h, String.data_append]⟩
      · exact ⟨i, ['W', 'T'], by decide, by rw [h, String.data_append]⟩
    · exact ih h

theorem not_mem_commodityPairsFrom_keys (s : String)
    (hs : s.data.take 2 ∉ commPrefixes) (items : List Commodity) (i : Nat) :
    s ∉ (commodityPairsFrom i items).map Prod.fst := by
  intro hmem
  obtain ⟨j, pre, hpre, hdata⟩ := mem_commodityPairsFrom_keys hmem
  apply hs
  rw [hdata]
  have hlen : pre.length = 2 := by
    fin_cases hpre <;> rfl
  rw [show (2 : Nat) = pre.length from hlen.symm, List.take_left]
  exact hpre

theorem topLevelPairs_keys (p : PickupRequest) (mode : String) :
    (topLevelPairs p mode).map Prod.fst = handledKeys := rfl

theorem runModeFrom_eq (calls : List Bool) :
    ∀ m, runModeFrom m calls = if true ∈ calls then "N" else m := by
  induction calls with
  | nil => intro m; simp [runModeFrom]
  | cons b rest ih =>
    intro m
    have step : runModeFrom m (b :: rest) =
        runModeFrom (setProductionMode b m) rest := rfl
    rw [step, ih]
    cases b <;> simp [setProductionMode, List.mem_cons]

theorem commodityPairsFrom_length (items : List Commodity) :
    ∀ i, (commodityPairsFrom i items).length = 5 * items.length := by
  induction items with
  | nil => intro i; rfl
  | cons c rest ih =>
    intro i
    rw [commodityPairsFrom, List.length_append, ih]
    simp only [commodityPairsOne, List.length_cons, List.length_nil]
    omega

/-! The claim theorems. -/

/-- C3: for every parsed carrier response, RequestPickup succeeds
(returns the populated Response and a nil error) exactly when the
confirmation number is non-empty, with NUMERRORS never consulted; on an
empty confirmation number it returns an error that embeds the
carrier-supplied error message. -/
theorem requestPickup_classification (r : Response) :
    (r.ConfirmationNumber ≠ "" → interpretResponse r = Except.ok r) ∧
    (r.ConfirmationNumber = "" →
      interpretResponse r = Except.error
        (wrapErr r.Error.Message "abf.RequestPickup - pickup request failed")) ∧
    (∀ n : Nat, (interpretResponse { r with NumErrors := n }).isOk =
      (interpretResponse r).isOk) := by
  refine ⟨fun h => ?_, fun h => ?_, fun n => ?_⟩
  · rw [interpretResponse, if_neg h]
  · rw [interpretResponse, if_pos h]
  · by_cases h : r.ConfirmationNumber = "" <;>
      simp [interpretResponse, h, Except.isOk, Except.toBool]

/-- C3 witness: the classification theorem applied to a concrete success
reply and a concrete failure reply. -/
theorem requestPickup_classification_witness :
    interpretResponse respOk = Except.ok respOk ∧
    interpretResponse respFail =
      Except.error "Missing zip: abf.RequestPickup - pickup request failed" := by
  constructor
  · exact (requestPickup_classification respOk).1 (by decide)
  · exact (requestPickup_classification respFail).2.1 rfl

/-- C5: every commodity's weight is emitted as the WT pair holding
formatFloat0 of the weight, a whole-number decimal string with no
fractional digits under the one fixed rounding rule (round to nearest,
ties to even); in particular weight 42.7 encodes as "43". -/
theorem weight_whole_number :
    (∀ (c : Commodity) (i : Nat),
        ("WT" ++ intRepr i, formatFloat0 c.Weight) ∈ commodityPairsOne i c ∧
        ∀ ch ∈ (formatFloat0 c.Weight).data, ch ≠ '.') ∧
    formatFloat0 (mkRat 427 10) = "43" := by
  refine ⟨fun c i => ⟨?_, fun ch hch => intRepr_ne_dot _ ch hch⟩, by decide⟩
  simp [commodityPairsOne]

/-- C5 witness: the weight theorem applied to the 42.7-pound commodity
at index 0, discharging the membership hypothesis at the digit '4'. -/
theorem weight_whole_number_witness :
    ("WT0", "43") ∈ commodityPairsOne 0 commodity427 ∧ ('4' : Char) ≠ '.' :=
  ⟨(weight_whole_number.1 commodity427 0).1,
   (weight_whole_number.1 commodity427 0).2 '4' (by decide)⟩

/-- C6: whenever the transport returns a body that the XML decoder
rejects, RequestPickup returns exactly that non-nil decode error and
never a silent empty success. -/
theorem decode_failure_propagates (p : PickupRequest) (mode : String)
    (post : String → Except String String)
    (unmarshal : String → Except String Response) (body e : String)
    (hpost : post (encodeValues (buildParams p mode)) = Except.ok body)
    (hum : unmarshal body = Except.error e) :
    requestPickupModel p mode post unmarshal = Except.error e ∧
    ∀ r, requestPickupModel p mode post unmarshal ≠ Except.ok r := by
  have hmid : requestPickupModel p mode post unmarshal =
      match unmarshal body with
      | Except.error e => Except.error e
      | Except.ok r => interpretResponse r := by
    rw [requestPickupModel, hpost]
  have h : requestPickupModel p mode post unmarshal = Except.error e := by
    rw [hmid, hum]
  exact ⟨h, fun r hr => by rw [h] at hr; exact Except.noConfusion hr⟩

/-- C6 witness: the decode-failure theorem applied to a transport that
returns truncated XML and a decoder that rejects it. -/
theorem decode_failure_propagates_witness :
    requestPickupModel emptyPickup "Y" (fun _ => Except.ok "<ABF><CONF")
      (fun _ => Except.error "XML syntax error: unexpected EOF") =
      Except.error "XML syntax error: unexpected EOF" :=
  (decode_failure_propagates emptyPickup "Y" _ _ "<ABF><CONF"
    "XML syntax error: unexpected EOF" rfl rfl).1

/-- C7: the Test mode key is appended unconditionally, exactly once, and
carries the process-wide discriminator (never per-request state: the
request's own Test field is ignored); the mode defaults to "Y" (test)
and becomes "N" (production) exactly when SetProductionMode(true) has
been called. -/
theorem test_mode_key (p : PickupRequest) (mode : String) :
    ("Test", mode) ∈ buildParams p mode ∧
    ((buildParams p mode).map Prod.fst).count "Test" = 1 ∧
    buildParams { p with Test := "N" } mode = buildParams p mode ∧
    initialTestMode = "Y" ∧
    ∀ calls : List Bool, (runModeCalls calls = "N" ↔ true ∈ calls) := by
  refine ⟨?_, ?_, rfl, rfl, fun calls => ?_⟩
  · simp [buildParams, topLevelPairs]
  · rw [buildParams, commodityPairs, List.map_append, List.count_append,
      topLevelPairs_keys,
      List.count_eq_zero.mpr
        (not_mem_commodityPairsFrom_keys "Test" (by decide) p.Items 0)]
    decide
  · rw [runModeCalls, runModeFrom_eq]
    by_cases h : true ∈ calls <;> simp [h, initialTestMode]

/-- C8: encoding is deterministic: the request-building step is a pure
function of the request and the process-wide mode, so two runs on
identical input produce byte-identical form-encoded output. -/
theorem encoding_deterministic (p : PickupRequest) (mode : String) :
    encodeValues (buildParams p mode) = encodeValues (buildParams p mode) := rfl

/-- C10: the mode is always "Y" or "N"; once a SetProductionMode(true)
call has happened, every later sequence of calls (including
SetProductionMode(false), which is a no-op) leaves the mode at "N". -/
theorem production_mode_one_way (calls later : List Bool) :
    (runModeCalls calls = "Y" ∨ runModeCalls calls = "N") ∧
    runModeCalls (calls ++ true :: later) = "N" ∧
    ∀ m, setProductionMode false m = m := by
  refine ⟨?_, ?_, fun m => rfl⟩
  · rw [runModeCalls, runModeFrom_eq]
    by_cases h : true ∈ calls
    · exact Or.inr (by rw [if_pos h])
    · exact Or.inl (by rw [if_neg h]; rfl)
  · rw [runModeCalls, runModeFrom_eq, if_pos (by simp)]

/-- C1 counterexample: a pickup request with sixteen commodities is not
rejected — the pipeline completes, its outcome is dictated by the
network collaborators (here a successful exchange), and the sixteenth
commodity's keys are present in the parameter list handed to the POST. -/
theorem no_validation_cex :
    pickup16.Items.length = 16 ∧
    requestPickupModel pickup16 "Y" (fun _ => Except.ok "")
      (fun _ => Except.ok respOk) = Except.ok respOk ∧
    ("HN15", "0") ∈ buildParams pickup16 "Y" :=
  ⟨by decide, rfl, by decide⟩

/-- C1 amended: RequestPickup performs no commodity-count validation:
every request, whatever its Items length (16 included), has all its
commodities encoded — exactly five indexed pairs per commodity, none
truncated — and the outcome is determined solely by the transport and
decode collaborators followed by the confirmation-number
classification; no ValidationError path exists. -/
theorem no_commodity_count_validation (p : PickupRequest) (mode : String) :
    (commodityPairs p.Items).length = 5 * p.Items.length ∧
    ∀ (post : String → Except String String)
      (unmarshal : String → Except String Response) (body : String),
      post (encodeValues (buildParams p mode)) = Except.ok body →
      ∀ r, unmarshal body = Except.ok r →
        requestPickupModel p mode post unmarshal = interpretResponse r := by
  refine ⟨commodityPairsFrom_length p.Items 0, ?_⟩
  intro post unmarshal body hpost r hum
  have hmid : requestPickupModel p mode post unmarshal =
      match unmarshal body with
      | Except.error e => Except.error e
      | Except.ok r => interpretResponse r := by
    rw [requestPickupModel, hpost]
  rw [hmid, hum]

/-- C1 witness: the no-validation theorem applied to the
sixteen-commodity request with concrete collaborators. -/
theorem no_commodity_count_validation_witness :
    (commodityPairs pickup16.Items).length = 5 * pickup16.Items.length ∧
    requestPickupModel pickup16 "Y" (fun _ => Except.ok "body")
      (fun _ => Except.ok respFail) = interpretResponse respFail :=
  ⟨(no_commodity_count_validation pickup16 "Y").1,
   (no_commodity_count_validation pickup16 "Y").2 _ _ "body" rfl respFail rfl⟩

/-- C2 counterexample: the encoder emits no key at all for the declared
optional field RequesterName, contradicting one-pair-per-declared-field. -/
theorem omitted_field_cex :
    "RequesterName" ∉ (buildParams emptyPickup "Y").map Prod.fst := by
  decide

/-- C2 amended: the encoder emits exactly one key/value pair for each of
the 22 struct fields it reads, plus the Test mode key (its value the
process-wide mode, not the struct's Test field); the other 28 declared
optional fields (RequesterName, ConsContact, ConsName, the TPB family,
ShipEmail, …) are never emitted at all — neither as empty strings nor
otherwise. -/
theorem encoder_emits_handled_fields (p : PickupRequest) (mode : String) :
    (buildParams p mode).map Prod.fst =
      handledKeys ++ (commodityPairs p.Items).map Prod.fst ∧
    (∀ k ∈ handledKeys, ((buildParams p mode).map Prod.fst).count k = 1) ∧
    (∀ o ∈ omittedFieldNames, o ∉ (buildParams p mode).map Prod.fst) := by
  refine ⟨by rw [buildParams, List.map_append, topLevelPairs_keys], ?_, ?_⟩
  · intro k hk
    fin_cases hk <;>
    · rw [buildParams, commodityPairs, List.map_append, List.count_append,
        topLevelPairs_keys,
        List.count_eq_zero.mpr
          (not_mem_commodityPairsFrom_keys _ (by decide) p.Items 0)]
      decide
  · intro o ho hmem
    rw [buildParams, commodityPairs, List.map_append] at hmem
    rcases List.mem_append.1 hmem with h | h
    · rw [topLevelPairs_keys] at h
      fin_cases ho <;> exact absurd h (by decide)
    · exact not_mem_commodityPairsFrom_keys o
        (by fin_cases ho <;> decide) p.Items 0 h

/-- C2 witness: the amended encoder theorem applied to the empty request,
discharging the membership hypotheses at the keys "ID" and "TPBName". -/
theorem encoder_emits_handled_fields_witness :
    ((buildParams emptyPickup "Y").map Prod.fst).count "ID" = 1 ∧
    "TPBName" ∉ (buildParams emptyPickup "Y").map Prod.fst :=
  ⟨(encoder_emits_handled_fields emptyPickup "Y").2.1 "ID" (by decide),
   (encoder_emits_handled_fields emptyPickup "Y").2.2 "TPBName" (by decide)⟩

/-- C4: the code suffixes every commodity's keys with the 0-based slice
index — a single-commodity request emits HN0/HT0/PN0/PT0/WT0 and no
HN1 — although the Commodity field comments (HN1, WT1, "1-15") and the
carrier numbering are 1-based, and with fifteen commodities the emitted
suffixes are 0 through 14, never 15. -/
theorem commodity_index_zero_based :
    (commodityPairs [{}]).map Prod.fst = ["HN0", "HT0", "PN0", "PT0", "WT0"] ∧
    "HN1" ∉ (buildParams pickup1 "Y").map Prod.fst ∧
    "HN0" ∈ (commodityPairs (List.replicate 15 ({} : Commodity))).map Prod.fst ∧
    "HN14" ∈ (commodityPairs (List.replicate 15 ({} : Commodity))).map Prod.fst ∧
    "HN15" ∉ (commodityPairs (List.replicate 15 ({} : Commodity))).map Prod.fst := by
  refine ⟨by decide, by decide, by decide, by decide, by decide⟩

/-- C9 counterexample: after SetTimeout(30 * time.Second) the stored
timeout is not the mathematical product (30·10⁹)·10⁹ ns — the int64
product wraps — and it is negative, so the caller gets neither 30 billion
seconds nor 30 seconds. -/
theorem setTimeout_overflow_cex :
    setTimeoutModel (30 * timeSecond) ≠ 30 * timeSecond * timeSecond ∧
    setTimeoutModel (30 * timeSecond) < 0 := by
  exact ⟨by decide, by decide⟩

/-- C9 amended: SetTimeout multiplies its argument by time.Second in
wrapping int64 arithmetic: whenever the mathematical product fits in
int64 the stored timeout equals seconds·10⁹ ns (so a bare count like 30
yields 30 seconds), while 30*time.Second overflows to the negative
duration -6893488147419103232 ns. -/
theorem setTimeout_scales_by_second (d : Int) :
    (-(2 ^ 63) ≤ d * timeSecond → d * timeSecond < 2 ^ 63 →
      setTimeoutModel d = d * timeSecond) ∧
    setTimeoutModel 30 = 30 * timeSecond ∧
    setTimeoutModel (30 * timeSecond) = -6893488147419103232 := by
  refine ⟨fun h1 h2 => ?_, by decide, by decide⟩
  simp only [setTimeoutModel, wrap64, timeSecond] at h1 h2 ⊢
  split <;> omega

/-- C9 witness: the amended SetTimeout theorem applied to the in-range
argument 3, discharging both range hypotheses. -/
theorem setTimeout_scales_by_second_witness :
    setTimeoutModel 3 = 3 * timeSecond :=
  (setTimeout_scales_by_second 3).1 (by decide) (by decide)

end Abf
